import Mathlib

/-!
Verification of the VisionVoice narration core: the Similarity Estimator and
Narration Transition Engine (`src/services/narrationOrchestrator.ts`) and the
Speech Batching & Playback Scheduler (`src/services/batchedSpeechManager.ts`).

The TypeScript classes are shallowly embedded as pure Lean functions over an
explicit state record.  Wall-clock reads (`Date.now()`) become an explicit
`now : Nat` argument; `setTimeout`/`setInterval` callbacks become explicit
transition functions (`timerFire`, `batchTick`, `audioOnEnded`, ...) that model
the event firing; asynchronous continuations of `processSpeech` are split at
their await points (`processSpeechStart`, `processSpeechAfterFetch`).  Strings
are Lean `String`s; the JS-specific operations used by the source
(`toLowerCase`, `trim`, `slice`, `split(/\s+/)`) are modelled character by
character for the ASCII range the narrations use.
-/

/-! ## JS string primitives -/

/-- Whitespace characters recognised by the JS `\s` class (ASCII range plus the
form-feed and vertical-tab controls; narration strings are ASCII). -/
def jsWhitespace (c : Char) : Bool :=
  c = ' ' || c = '\t' || c = '\n' || c = '\r' || c = Char.ofNat 11 || c = Char.ofNat 12

/-- ASCII lower-casing of one character, as `String.prototype.toLowerCase`
acts on the ASCII range. -/
def lowerChar (c : Char) : Char :=
  if 'A' ≤ c && c ≤ 'Z' then Char.ofNat (c.toNat + 32) else c

/-- Model of `s.toLowerCase()` (ASCII range). -/
def jsToLower (s : String) : String :=
  ⟨s.data.map lowerChar⟩

/-- Model of `s.trim()`: strip leading and trailing whitespace. -/
def jsTrim (s : String) : String :=
  ⟨((s.data.dropWhile jsWhitespace).reverse.dropWhile jsWhitespace).reverse⟩

/-- Model of `s.slice(0, n)`. -/
def sliceTake (s : String) (n : Nat) : String :=
  ⟨s.data.take n⟩

/-- Interior pieces of a JS regex split: empty pieces between two separator
runs are merged away, but an empty piece in the last position (produced by a
trailing separator) is kept. -/
def dropMidEmpty : List (List Char) → List String
  | [] => []
  | [x] => [⟨x⟩]
  | x :: xs => if x.isEmpty then dropMidEmpty xs else (⟨x⟩ : String) :: dropMidEmpty xs

/-- Model of `s.split(/\s+/)`: split on maximal whitespace runs.  As in JS,
a leading run contributes a leading `""`, a trailing run a trailing `""`, and
`"".split(/\s+/)` is `[""]`. -/
def jsSplitWs (s : String) : List String :=
  match s.data.splitOnP jsWhitespace with
  | [] => []
  | x :: xs => (⟨x⟩ : String) :: dropMidEmpty xs

/-- Exact value of the JS division `num / den` of two nonnegative counts for
`den ≠ 0` (every use site below guards the zero denominator exactly as the
source does).  Written with `mkRat`, which equals `(num : ℚ) / den` (see
`jsDiv_eq_div`) but also evaluates inside the kernel. -/
def jsDiv (num den : Nat) : ℚ := mkRat num den

theorem jsDiv_eq_div (num den : Nat) : jsDiv num den = (num : ℚ) / (den : ℚ) := by
  rw [jsDiv, Rat.mkRat_eq_divInt, Rat.divInt_eq_div]
  push_cast
  rfl

/-! ## Similarity Estimator (`NarrationOrchestrator.calculateSimilarity`) -/

/-- Embedding of `calculateSimilarity(text1, text2)` (narrationOrchestrator.ts
lines 210-219): Jaccard overlap of the JS `Set`s of lower-cased
whitespace-split tokens.  JS `Set` semantics are `Finset`s; the score is exact
rational arithmetic. -/
def calculateSimilarity (text1 text2 : String) : ℚ :=
  let words1 := (jsSplitWs (jsToLower text1)).toFinset
  let words2 := (jsSplitWs (jsToLower text2)).toFinset
  let intersection := words1 ∩ words2
  let union := words1 ∪ words2
  if union.card = 0 then 0 else jsDiv intersection.card union.card

/-! ## Narration Transition Engine (`narrationOrchestrator.ts`)

The engine's key-phrase extractor (`extractKeyPhrases`, a JS-regex heuristic)
only influences the *phrasing* of refined text, never the transition
classification, the debounce behaviour or the context window; every function
that uses it is therefore parameterized by an arbitrary extractor
`ekp : String → List String` and every theorem below holds for all of them. -/

/-- `TransitionType` enum (types/narration.ts).  `REMOVAL` is declared in the
source but never produced by the orchestrator. -/
inductive TransitionType where
  | NEW
  | UPDATE
  | CONTINUE
  | REMOVAL
deriving DecidableEq, Repr

/-- One entry of the narration context (`DescriptionEntry`).  The source also
carries an opaque `id` (wall-clock + random) and a `timestamp`, neither of
which is ever read by the orchestrator logic; they are omitted.  The optional
`refinedText` field is modelled as a `String` where `""` plays the role of the
JS falsy values (`addToContext` always writes the field). -/
structure DescriptionEntry where
  text : String
  refinedText : String
deriving DecidableEq, Repr

/-- `NarrationContext` (types/narration.ts). -/
structure NarrationContext where
  descriptions : List DescriptionEntry
  maxSize : Nat
deriving DecidableEq, Repr

/-- `RefinedDescription` (types/narration.ts); the optional `metadata` record
is flattened into two list fields that default to `[]` (the handlers that omit
metadata leave them empty). -/
structure RefinedDescription where
  originalText : String
  refinedText : String
  transitionType : TransitionType
  newElements : List String := []
  removedElements : List String := []
deriving DecidableEq, Repr

/-- `extractNewElements(newText, lastText)` (lines 166-171): key phrases of the
new text absent from the last text. -/
def extractNewElements (ekp : String → List String) (newText lastText : String) : List String :=
  let newWords := ekp newText
  let lastWords := ekp lastText
  newWords.filter (fun phrase => ¬ lastWords.contains phrase)

/-- `extractRemovedElements(newText, lastText)` (lines 176-181). -/
def extractRemovedElements (ekp : String → List String) (newText lastText : String) : List String :=
  let newWords := ekp newText
  let lastWords := ekp lastText
  lastWords.filter (fun phrase => ¬ newWords.contains phrase)

/-- `handleContinuation(newText, lastText)` (lines 103-124). -/
def handleContinuation (ekp : String → List String) (newText lastText : String) : RefinedDescription :=
  let newElements := extractNewElements ekp newText lastText
  if newElements.length > 0 then
    { originalText := newText
      refinedText := "The scene continues. " ++ String.intercalate ", " newElements
      transitionType := TransitionType.CONTINUE
      newElements := newElements }
  else
    { originalText := newText, refinedText := newText, transitionType := TransitionType.CONTINUE }

/-- `handleUpdate(newText, lastText)` (lines 129-150). -/
def handleUpdate (ekp : String → List String) (newText lastText : String) : RefinedDescription :=
  let newElements := extractNewElements ekp newText lastText
  let removedElements := extractRemovedElements ekp newText lastText
  let refined :=
    if removedElements.length > 0 && newElements.length > 0 then
      String.intercalate " and " removedElements ++
        (if removedElements.length = 1 then " has changed. " else " have changed. ") ++
        String.intercalate ", " newElements
    else if newElements.length > 0 then
      "Now I see " ++ String.intercalate ", " newElements
    else newText
  { originalText := newText
    refinedText := refined
    transitionType := TransitionType.UPDATE
    newElements := newElements
    removedElements := removedElements }

/-- `handleNew(newText, _lastText)` (lines 155-161). -/
def handleNew (newText _lastText : String) : RefinedDescription :=
  { originalText := newText, refinedText := newText, transitionType := TransitionType.NEW }

/-- `refineDescription(text)` (lines 72-98).  `descriptions[length-1]` is
`getLast?`; `lastDescription.refinedText || lastDescription.text` is the JS
falsy fallback from an empty refined text.  The thresholds `0.8` and `0.3` are
the exact rationals `8/10` and `3/10`. -/
def refineDescription (ekp : String → List String) (context : NarrationContext)
    (text : String) : RefinedDescription :=
  match context.descriptions.getLast? with
  | none => { originalText := text, refinedText := text, transitionType := TransitionType.NEW }
  | some lastDescription =>
    let lastText :=
      if lastDescription.refinedText = "" then lastDescription.text
      else lastDescription.refinedText
    let similarity := calculateSimilarity text lastText
    if jsDiv 8 10 < similarity then handleContinuation ekp text lastText
    else if jsDiv 3 10 < similarity then handleUpdate ekp text lastText
    else handleNew text lastText

/-- `addToContext(text, refinedText)` (lines 224-238): append the new entry,
then `shift` the oldest one out if the window exceeds `maxSize`. -/
def addToContext (context : NarrationContext) (text refinedText : String) : NarrationContext :=
  let descriptions := context.descriptions ++ [{ text := text, refinedText := refinedText }]
  if descriptions.length > context.maxSize then
    { context with descriptions := descriptions.tail }
  else
    { context with descriptions := descriptions }

/-- Mutable state of a `NarrationOrchestrator` instance.  The JS timer handle
`transitionTimer` becomes the flag `timerActive` (a scheduled, not yet fired
or cancelled, timeout exists); `onRefinedReady` callbacks are identified by
the caller-chosen `Nat` tag of the `processDescription` call that registered
them, so that "whose callback fires" is observable in the model. -/
structure OrchestratorState where
  context : NarrationContext
  pendingDescription : Option String
  pendingCallback : Option Nat
  timerActive : Bool
deriving DecidableEq, Repr

/-- A fresh orchestrator (constructor, lines 21-27). -/
def orchestratorInit (contextSize : Nat := 5) : OrchestratorState :=
  { context := { descriptions := [], maxSize := contextSize }
    pendingDescription := none
    pendingCallback := none
    timerActive := false }

/-- `cancelPendingTransition()` (lines 60-67). -/
def cancelPendingTransition (st : OrchestratorState) : OrchestratorState :=
  { st with timerActive := false, pendingDescription := none, pendingCallback := none }

/-- `processDescription(text, onReady)` (lines 32-55): cancel any pending
transition, store text and callback, schedule the debounce timer.  The timer
body runs at the separate `timerFire` event. -/
def processDescription (st : OrchestratorState) (callId : Nat) (text : String) :
    OrchestratorState :=
  let st1 := cancelPendingTransition st
  { st1 with
    pendingDescription := some text
    pendingCallback := some callId
    timerActive := true }

/-- The debounce timeout firing (body of the `setTimeout` closure, lines
44-54).  Only a timer that is still scheduled can fire; `clearTimeout` in
`cancelPendingTransition` removes the event.  The source's truthiness guard
`if (this.pendingDescription && this.onRefinedReady)` skips the whole body —
emitting nothing and clearing nothing — when either field is null or the
stored text is the falsy `""`.  Returns the new state plus the
`(callback tag, refined description)` handed to `onRefinedReady`, if any. -/
def timerFire (ekp : String → List String) (st : OrchestratorState) :
    OrchestratorState × Option (Nat × RefinedDescription) :=
  if st.timerActive = false then (st, none)
  else
    match st.pendingDescription, st.pendingCallback with
    | some text, some cb =>
      if text = "" then ({ st with timerActive := false }, none)
      else
        let refined := refineDescription ekp st.context text
        let context2 := addToContext st.context text refined.refinedText
        ({ st with
            context := context2
            pendingDescription := none
            pendingCallback := none
            timerActive := false }, some (cb, refined))
    | _, _ => ({ st with timerActive := false }, none)

/-- Sequential `processDescription` calls, tagged `0, 1, 2, ...` in call
order, with no timer fire in between (i.e. all within one debounce window). -/
def runCalls (st : OrchestratorState) (calls : List (Nat × String)) : OrchestratorState :=
  calls.foldl (fun s c => processDescription s c.1 c.2) st

/-- One fully resolved `processDescription` round: the call, then its debounce
timer firing with nothing superseding it. -/
def runRound (ekp : String → List String) (st : OrchestratorState)
    (c : Nat × String) : OrchestratorState :=
  (timerFire ekp (processDescription st c.1 c.2)).1

/-! ## Speech Batching & Playback Scheduler (`batchedSpeechManager.ts`)

The class state becomes the record `BSMState`; `Date.now()` becomes the
explicit argument `now`.  Methods that merely mutate state are state
transformers; methods whose only other action is to hand a text to the
asynchronous `processSpeech` chain (via `setTimeout(..., 25)`) additionally
return a `SpeechEffect`.  The two await points of `processSpeech` split it
into `processSpeechStart` (the synchronous prefix up to the TTS request) and
`processSpeechAfterFetch` (the continuation after the audio blob arrived);
the audio element's `onplay`/`onended` events are the transitions
`audioOnPlay`/`audioOnEnded`. -/

/-- `ObservationPriority` (types/batching.ts). -/
inductive ObservationPriority where
  | critical
  | high
  | medium
  | low
deriving DecidableEq, Repr

/-- `Observation` (types/batching.ts).  The opaque random `id` is never read
by any logic and is omitted; `timestamp` is the `Date.now()` at creation. -/
structure Observation where
  narration : String
  priority : ObservationPriority
  timestamp : Nat
deriving DecidableEq, Repr

/-- The argument of `addObservation` (`Omit<Observation,'id'|'timestamp'>`). -/
structure ObservationIn where
  narration : String
  priority : ObservationPriority
deriving DecidableEq, Repr

/-- The observable playback state of an `HTMLAudioElement`. -/
structure AudioEl where
  paused : Bool
  ended : Bool
deriving DecidableEq, Repr

/-- The mutable fields of `BatchedSpeechManager` (lines 8-25), plus the ghost
field `lastEndedAt`: specification instrumentation, written only by
`audioOnEnded`, recording when the last utterance's `onended` event fired.
No source field holds this instant; it is needed solely to state the spec's
"time since the last utterance ended" condition. -/
structure BSMState where
  pendingObservations : List Observation
  isSpeaking : Bool
  isProcessingRef : Bool
  currentAudioRef : Option AudioEl
  currentAudioUrlRef : Option String
  speechStartTime : Nat
  currentNarrationText : Option String
  lastSpoken : List (String × Nat)
  dedupeWindowMs : Nat
  minSpeechDuration : Nat
  apiKey : Option String
  lastEndedAt : Nat
deriving DecidableEq, Repr

/-- A freshly constructed manager (constructor, lines 27-45). -/
def bsmInit (apiKey : Option String) : BSMState :=
  { pendingObservations := []
    isSpeaking := false
    isProcessingRef := false
    currentAudioRef := none
    currentAudioUrlRef := none
    speechStartTime := 0
    currentNarrationText := none
    lastSpoken := []
    dedupeWindowMs := 6000
    minSpeechDuration := 500
    apiKey := apiKey
    lastEndedAt := 0 }

/-- Lookup in the `lastSpoken` JS `Map` (keys are unique). -/
def mapGet (m : List (String × Nat)) (key : String) : Option Nat :=
  (m.find? (fun p => p.1 = key)).map (fun p => p.2)

/-- `Map.set`: overwrite the entry in place if the key exists, else append
(JS maps preserve insertion order). -/
def mapSet (m : List (String × Nat)) (key : String) (v : Nat) : List (String × Nat) :=
  if m.any (fun p => p.1 = key) then
    m.map (fun p => if p.1 = key then (key, v) else p)
  else m ++ [(key, v)]

/-- `isSimilarNarration(a, b)` (lines 73-92): 25-character prefixes match, or
more than half of the "key words" (tokens longer than 3 characters) of the
shorter word list also occur in the other.  `commonWords` is a filtered list,
not a set, exactly as in the source; the ratio guard divides only after both
lists were checked non-empty. -/
def isSimilarNarration (a b : String) : Bool :=
  if sliceTake a 25 = sliceTake b 25 then true
  else
    let wordsA := ((jsSplitWs a).filter (fun w => w.length > 3)).map jsToLower
    let wordsB := ((jsSplitWs b).filter (fun w => w.length > 3)).map jsToLower
    if wordsA.length = 0 || wordsB.length = 0 then false
    else
      let commonWords := wordsA.filter (fun w => wordsB.contains w)
      decide (jsDiv 5 10 < jsDiv commonWords.length (min wordsA.length wordsB.length))

/-- `isNewObject(narration)` (lines 97-120).  When both key-word lists are
empty the JS division is `0/0 = NaN` and `NaN < 0.3` is `false`; the guard on
`max ... = 0` models exactly that. -/
def isNewObjectCheck (st : BSMState) (narration : String) : Bool :=
  match st.currentNarrationText with
  | none => true
  | some currentText =>
    let current := jsToLower currentText
    let newNarration := jsToLower narration
    if sliceTake current 30 = sliceTake newNarration 30 then false
    else
      let currentWords := (jsSplitWs current).filter (fun w => w.length > 3)
      let newWords := (jsSplitWs newNarration).filter (fun w => w.length > 3)
      let commonWords := currentWords.filter (fun w => newWords.contains w)
      if max currentWords.length newWords.length = 0 then false
      else decide (jsDiv commonWords.length (max currentWords.length newWords.length) < jsDiv 3 10)

/-- The normalised dedup key `narration.toLowerCase().trim()`. -/
def normalizeKey (narration : String) : String := jsTrim (jsToLower narration)

/-- `wasRecentlySpoken(narration)` (lines 50-68): an exact hit on the
normalised key inside the dedupe window (note the JS truthiness test
`if (lastTime && ...)`, which rejects a `0` timestamp), or any registry entry
inside the window lexically similar to the key. -/
def wasRecentlySpoken (st : BSMState) (now : Nat) (narration : String) : Bool :=
  let key := normalizeKey narration
  let exactHit :=
    match mapGet st.lastSpoken key with
    | some lastTime => decide (lastTime ≠ 0) && decide (now - lastTime < st.dedupeWindowMs)
    | none => false
  if exactHit then true
  else
    st.lastSpoken.any (fun p =>
      decide (now - p.2 < st.dedupeWindowMs) && isSimilarNarration key p.1)

/-- `stopCurrentSpeech()` (lines 422-441): pause and drop the audio element,
revoke and drop the object URL, reset every speaking flag. -/
def stopCurrentSpeech (st : BSMState) : BSMState :=
  { st with
    currentAudioRef := none
    currentAudioUrlRef := none
    isProcessingRef := false
    isSpeaking := false
    speechStartTime := 0
    currentNarrationText := none }

/-- The deferred work a scheduler method hands to `setTimeout`: either nothing,
or a `processSpeech(text)` invocation 25 ms later. -/
inductive SpeechEffect where
  | none
  | scheduleProcessSpeech (text : String)
deriving DecidableEq, Repr

/-- `speakNow(text)` (lines 400-417): reject blank text, require an API key,
stop current audio, then schedule `processSpeech(text)`. -/
def speakNow (st : BSMState) (text : String) : BSMState × SpeechEffect :=
  if (jsTrim text).length = 0 then (st, SpeechEffect.none)
  else
    match st.apiKey with
    | none => (st, SpeechEffect.none)
    | some _ => (stopCurrentSpeech st, SpeechEffect.scheduleProcessSpeech text)

/-- The `isCurrentlySpeaking` test of `addObservation` (lines 146-147) and the
audio-playing guard of the batch timer (line 278). -/
def audioActive (st : BSMState) : Bool :=
  match st.currentAudioRef with
  | some a => !a.paused && !a.ended
  | none => false

mutual

/-- `addObservation(observation)` (lines 137-253), routing by priority and
current speaking state.  `interrupt` may re-enter `addObservation` (its
"queue the interruption" branch), so both functions carry a structural fuel;
the re-entry depth is at most 2 because a requeued interruption is always
`critical` and a critical add never reaches `interrupt` again while
`speechDuration < minSpeechDuration`.  The exported `addObservation` below
fixes a fuel that is never exhausted. -/
def addObservationFuel : Nat → BSMState → Nat → ObservationIn → BSMState × SpeechEffect
  | 0, st, _, _ => (st, SpeechEffect.none)
  | fuel + 1, st, now, observation =>
    if observation.priority ≠ ObservationPriority.critical
        && wasRecentlySpoken st now observation.narration then
      (st, SpeechEffect.none)
    else
      let isCurrentlySpeaking := st.isSpeaking || st.isProcessingRef || audioActive st
      let isNewObject := isNewObjectCheck st observation.narration
      let fullObservation : Observation :=
        { narration := observation.narration, priority := observation.priority, timestamp := now }
      if observation.priority = ObservationPriority.critical then
        let speechDuration := now - st.speechStartTime
        if isCurrentlySpeaking && decide (speechDuration ≥ st.minSpeechDuration) then
          interruptFuel fuel st now observation.narration none
        else
          ({ st with pendingObservations := fullObservation :: st.pendingObservations },
            SpeechEffect.none)
      else if observation.priority = ObservationPriority.high then
        if isCurrentlySpeaking && isNewObject then
          let speechDuration := now - st.speechStartTime
          if decide (speechDuration ≥ 300) then
            interruptFuel fuel st now observation.narration (some 300)
          else
            ({ st with pendingObservations := fullObservation :: st.pendingObservations },
              SpeechEffect.none)
        else if !isCurrentlySpeaking then
          speakNow st observation.narration
        else
          ({ st with pendingObservations := fullObservation :: st.pendingObservations },
            SpeechEffect.none)
      else
        if isCurrentlySpeaking && isNewObject then
          let speechDuration := now - st.speechStartTime
          if decide (speechDuration ≥ 500) then
            interruptFuel fuel st now observation.narration (some 500)
          else
            ({ st with pendingObservations := st.pendingObservations ++ [fullObservation] },
              SpeechEffect.none)
        else
          let isDuplicate := st.pendingObservations.any (fun existing =>
            isSimilarNarration (jsTrim (jsToLower existing.narration))
              (jsTrim (jsToLower observation.narration)))
          if isDuplicate then (st, SpeechEffect.none)
          else
            ({ st with pendingObservations := st.pendingObservations ++ [fullObservation] },
              SpeechEffect.none)

/-- `interrupt(text, minDurationOverride?)` (lines 376-395): requeue as a
critical observation while barely-started speech is playing, otherwise stop
the audio and schedule `processSpeech(text)` after the settle delay. -/
def interruptFuel : Nat → BSMState → Nat → String → Option Nat → BSMState × SpeechEffect
  | 0, st, _, _, _ => (st, SpeechEffect.none)
  | fuel + 1, st, now, text, minDurationOverride =>
    let minDuration := minDurationOverride.getD st.minSpeechDuration
    let speechDuration := now - st.speechStartTime
    if st.isSpeaking && decide (speechDuration < minDuration) then
      addObservationFuel fuel st now { narration := text, priority := ObservationPriority.critical }
    else
      (stopCurrentSpeech st, SpeechEffect.scheduleProcessSpeech text)

end

/-- `addObservation` with enough fuel for its bounded re-entry. -/
def addObservation (st : BSMState) (now : Nat) (observation : ObservationIn) :
    BSMState × SpeechEffect :=
  addObservationFuel 3 st now observation

/-- `interrupt` with enough fuel for its bounded re-entry. -/
def interrupt (st : BSMState) (now : Nat) (text : String) (minDurationOverride : Option Nat) :
    BSMState × SpeechEffect :=
  interruptFuel 3 st now text minDurationOverride

/-- The batch comparator's priority rank: `priorityOrder.indexOf` for
`['critical','high','medium','low']` (line 336). -/
def priorityIndex : ObservationPriority → Nat
  | ObservationPriority.critical => 0
  | ObservationPriority.high => 1
  | ObservationPriority.medium => 2
  | ObservationPriority.low => 3

/-- Stable insertion of one observation by priority rank: it goes after every
element of rank less than or equal to its own, as a JS stable sort keeps
earlier equal-ranked elements first. -/
def insertByPriority (x : Observation) : List Observation → List Observation
  | [] => [x]
  | y :: ys =>
    if priorityIndex y.priority ≤ priorityIndex x.priority then y :: insertByPriority x ys
    else x :: y :: ys

/-- `unique.sort((a, b) => priorityOrder.indexOf(a.priority) -
priorityOrder.indexOf(b.priority))` (lines 337-339): `Array.prototype.sort`
is stable (ECMA-262), and stable sorting by a comparator on a 4-valued rank
is exactly iterated stable insertion. -/
def sortByPriority (l : List Observation) : List Observation :=
  l.foldl (fun acc x => insertByPriority x acc) []

/-- `deduplicateObservations(observations)` (lines 357-371): keep the first
observation for each 30-character lower-cased text key. -/
def deduplicateObservationsGo : List Observation → List String → List Observation
  | [], _ => []
  | obs :: rest, seen =>
    let key := sliceTake (jsToLower obs.narration) 30
    if seen.contains key then deduplicateObservationsGo rest seen
    else obs :: deduplicateObservationsGo rest (key :: seen)

/-- `deduplicateObservations` entry point (empty `seen` set). -/
def deduplicateObservations (observations : List Observation) : List Observation :=
  deduplicateObservationsGo observations []

/-- The final join of `summarizeBatch` (lines 345-351): 1 item verbatim,
2 items as "{first}. Also, {second lower-cased}", 3 items dotted.  `top` has
at most 3 elements; the empty case cannot be reached by the source (it would
index into an empty array) and yields the empty summary here. -/
def joinTop : List Observation → String
  | [] => ""
  | [a] => a.narration
  | [a, b] => a.narration ++ ". Also, " ++ jsToLower b.narration
  | a :: b :: c :: _ => a.narration ++ ". " ++ b.narration ++ ". " ++ c.narration

/-- `summarizeBatch(observations)` (lines 318-352): drop recently spoken
observations; none left → empty summary, one left → verbatim; otherwise
deduplicate, stable-sort by priority, take the top 3, join. -/
def summarizeBatch (st : BSMState) (now : Nat) (observations : List Observation) : String :=
  let notRecentlySpoken := observations.filter (fun obs => !wasRecentlySpoken st now obs.narration)
  match notRecentlySpoken with
  | [] => ""
  | [obs] => obs.narration
  | remaining =>
    let unique := deduplicateObservations remaining
    let sorted := sortByPriority unique
    let top := sorted.take 3
    joinTop top

/-- The body of the periodic `setInterval` batch-flush callback
(`startBatching`, lines 264-312), run at instant `now`:  skip while the queue
is empty, a speak is in flight, audio is audibly playing, or playback of the
current utterance began less than 100 ms ago; otherwise drain the whole queue
atomically, summarize, and speak the summary unless it is blank or itself a
recent duplicate. -/
def batchTick (st : BSMState) (now : Nat) : BSMState × SpeechEffect :=
  if st.pendingObservations.length = 0 then (st, SpeechEffect.none)
  else if st.isSpeaking || st.isProcessingRef then (st, SpeechEffect.none)
  else if audioActive st then (st, SpeechEffect.none)
  else if decide (st.speechStartTime > 0) && decide (now - st.speechStartTime < 100) then
    (st, SpeechEffect.none)
  else
    let batch := st.pendingObservations
    let st1 := { st with pendingObservations := [] }
    let summary := summarizeBatch st1 now batch
    if (jsTrim summary).length = 0 then (st1, SpeechEffect.none)
    else if wasRecentlySpoken st1 now summary then (st1, SpeechEffect.none)
    else speakNow st1 summary

/-- The synchronous prefix of `processSpeech(text)` (lines 446-476), up to the
TTS network request.  Returns the state and whether the synthesis request was
issued (`false`: the text was requeued as a medium observation instead). -/
def processSpeechStart (st : BSMState) (now : Nat) (text : String) : BSMState × Bool :=
  if st.isProcessingRef || st.isSpeaking then
    ({ st with pendingObservations := st.pendingObservations ++
        [{ narration := text, priority := ObservationPriority.medium, timestamp := now }] },
      false)
  else if (match st.currentAudioRef with | some a => !a.paused | none => false) then
    ({ st with pendingObservations := st.pendingObservations ++
        [{ narration := text, priority := ObservationPriority.medium, timestamp := now }] },
      false)
  else
    ({ st with isProcessingRef := true, isSpeaking := true }, true)

/-- The continuation of `processSpeech(text)` after the audio blob arrived
(lines 526-552): when `isProcessingRef` was cleared by a cancellation during
the fetch, the result is discarded and playback never starts (`false`);
otherwise any existing audio is stopped, the new audio element and object URL
are installed (the element starts paused until its `play()` resolves), the
narration is recorded in `lastSpoken`, and playback is initiated (`true`).
The object URL is opaque; it is represented by the text it plays. -/
def processSpeechAfterFetch (st : BSMState) (now : Nat) (text : String) : BSMState × Bool :=
  if !st.isProcessingRef then (st, false)
  else
    let st1 := stopCurrentSpeech st
    ({ st1 with
        currentAudioRef := some { paused := true, ended := false }
        currentAudioUrlRef := some text
        currentNarrationText := some text
        lastSpoken := mapSet st1.lastSpoken (normalizeKey text) now }, true)

/-- The audio element's `onplay` handler (lines 589-592) together with the
element switching out of `paused`: records the audible start instant. -/
def audioOnPlay (st : BSMState) (now : Nat) : BSMState :=
  match st.currentAudioRef with
  | some a => { st with currentAudioRef := some { a with paused := false }, speechStartTime := now }
  | none => { st with speechStartTime := now }

/-- The audio element's `onended` handler (lines 555-574), minus its deferred
`forceProcessBatch` retry: release the object URL and element, reset all
flags.  Also writes the ghost `lastEndedAt`. -/
def audioOnEnded (st : BSMState) (now : Nat) : BSMState :=
  { st with
    currentAudioUrlRef := none
    currentAudioRef := none
    isSpeaking := false
    isProcessingRef := false
    speechStartTime := 0
    currentNarrationText := none
    lastEndedAt := now }

/-- `stop()` (lines 622-625): stop current speech and clear the queue. -/
def bsmStop (st : BSMState) : BSMState :=
  { stopCurrentSpeech st with pendingObservations := [] }

/-- `getPendingCount()` (lines 630-632). -/
def getPendingCount (st : BSMState) : Nat := st.pendingObservations.length

/-- `getIsSpeaking()` (lines 637-641). -/
def getIsSpeaking (st : BSMState) : Bool :=
  st.isSpeaking || st.isProcessingRef || audioActive st

/-! ## Specification-side definitions and concrete fixtures -/

/-- The summarization pipeline exactly as the specification words it
(spec §4.3 "Summarization"): deduplicate the drained batch by the truncated
text key, sort by priority `critical > high > medium > low`, take at most the
top 3, join.  Kept separate from `summarizeBatch` so the two can be
compared. -/
def claimSummarize (observations : List Observation) : String :=
  joinTop ((sortByPriority (deduplicateObservations observations)).take 3)

/-- A manager mid-playback: one queued observation, audio element audible
since 900 ms. -/
def stPlayingFx : BSMState :=
  { bsmInit (some "key") with
    pendingObservations :=
      [{ narration := "Crosswalk ahead", priority := ObservationPriority.medium, timestamp := 900 }]
    currentAudioRef := some { paused := false, ended := false }
    currentAudioUrlRef := some "Crosswalk ahead"
    currentNarrationText := some "Crosswalk ahead"
    speechStartTime := 900 }

/-- A manager whose dedupe registry recorded `"b"` as spoken at 950 ms. -/
def stRecentFx : BSMState :=
  { bsmInit (some "key") with lastSpoken := [("b", 950)] }

/-- A manager with a synthesis request in flight. -/
def stProcFx : BSMState :=
  { bsmInit (some "key") with isProcessingRef := true, isSpeaking := true }

/-- A two-observation batch whose critical member was recently spoken in
`stRecentFx`. -/
def batchFx : List Observation :=
  [{ narration := "B", priority := ObservationPriority.critical, timestamp := 900 },
   { narration := "A", priority := ObservationPriority.low, timestamp := 901 }]

/-- The spec's C5 example batch `[{low,"A"},{critical,"B"},{medium,"C"}]`. -/
def batchABCFx : List Observation :=
  [{ narration := "A", priority := ObservationPriority.low, timestamp := 0 },
   { narration := "B", priority := ObservationPriority.critical, timestamp := 0 },
   { narration := "C", priority := ObservationPriority.medium, timestamp := 0 }]

/-! ## Helper lemmas -/

theorem jsDiv_nonneg (num den : Nat) : 0 ≤ jsDiv num den := by
  rw [jsDiv_eq_div]
  positivity

theorem jsDiv_le_one (num den : Nat) (hle : num ≤ den) (hd : den ≠ 0) : jsDiv num den ≤ 1 := by
  rw [jsDiv_eq_div]
  rw [div_le_one (by exact_mod_cast Nat.pos_of_ne_zero hd)]
  exact_mod_cast hle

theorem handleContinuation_originalText (ekp : String → List String) (newText lastText : String) :
    (handleContinuation ekp newText lastText).originalText = newText := by
  rw [handleContinuation]
  split <;> rfl

/-- Every branch of `refineDescription` copies the processed text into
`originalText`. -/
theorem refineDescription_originalText (ekp : String → List String)
    (context : NarrationContext) (text : String) :
    (refineDescription ekp context text).originalText = text := by
  rcases hL : context.descriptions.getLast? with _ | e
  · rw [refineDescription, hL]
  · simp only [refineDescription, hL]
    split <;> split
    · exact handleContinuation_originalText ..
    · split
      · rfl
      · rfl
    · exact handleContinuation_originalText ..
    · split
      · rfl
      · rfl

/-- `processDescription` never touches the context window. -/
theorem runCalls_context (st : OrchestratorState) (calls : List (Nat × String)) :
    (runCalls st calls).context = st.context := by
  induction calls generalizing st with
  | nil => rfl
  | cons c rest ih =>
    show (runCalls (processDescription st c.1 c.2) rest).context = st.context
    rw [ih]
    rfl

theorem runCalls_concat (st : OrchestratorState) (l : List (Nat × String)) (c : Nat × String) :
    runCalls st (l ++ [c]) = processDescription (runCalls st l) c.1 c.2 := by
  simp [runCalls, List.foldl_append]

/-- `mapSet` really stores the entry. -/
theorem mem_mapSet (m : List (String × Nat)) (key : String) (v : Nat) :
    (key, v) ∈ mapSet m key v := by
  rw [mapSet]
  split
  · next hany =>
    rcases List.any_eq_true.mp hany with ⟨p, hp, hpk⟩
    refine List.mem_map.mpr ⟨p, hp, ?_⟩
    simp [of_decide_eq_true hpk]
  · exact List.mem_append_right _ (List.mem_singleton.mpr rfl)

/-- A narration is always lexically similar to itself (25-character prefixes
coincide). -/
theorem isSimilarNarration_refl (a : String) : isSimilarNarration a a = true := by
  rw [isSimilarNarration]
  simp

/-- Any registry entry for the normalised key inside the dedupe window makes
`wasRecentlySpoken` fire (if not through the truthiness-guarded exact branch,
then through the similarity scan, since a key is similar to itself). -/
theorem wasRecentlySpoken_of_mem (st : BSMState) (now : Nat) (narration : String) (t : Nat)
    (hmem : (normalizeKey narration, t) ∈ st.lastSpoken)
    (ht : now - t < st.dedupeWindowMs) :
    wasRecentlySpoken st now narration = true := by
  rw [wasRecentlySpoken]
  split
  · rfl
  · refine List.any_eq_true.mpr ⟨(normalizeKey narration, t), hmem, ?_⟩
    simp [ht, isSimilarNarration_refl]

/-- The very first guard of `addObservation`: a non-critical observation whose
narration was recently spoken is dropped with no state change and no
effect. -/
theorem addObservation_noop_of_recent (st : BSMState) (now : Nat) (observation : ObservationIn)
    (h1 : observation.priority ≠ ObservationPriority.critical)
    (h2 : wasRecentlySpoken st now observation.narration = true) :
    addObservation st now observation = (st, SpeechEffect.none) := by
  rw [addObservation, show (3 : Nat) = 2 + 1 from rfl, addObservationFuel]
  simp [h1, h2]

/-! ## Claim theorems -/

/-- Claim C2, counterexample.  The claim states that the similarity of two
empty strings is 0; the source returns 1, because `"".split(/\s+/)` is
`[""]`, so both word sets are the singleton `{""}` and the Jaccard score is
`1/1`.  (The `union.size === 0` guard in the source is unreachable.) -/
theorem C2_counterexample : calculateSimilarity "" "" = 1 ∧ (1 : ℚ) ≠ 0 := by
  constructor
  · decide
  · decide

/-- Claim C2 as amended: the similarity is the Jaccard overlap
`|intersection| / |union|` of the lower-cased, whitespace-split token sets —
where the JS tokenizer contributes an empty token for leading/trailing
whitespace and for an empty string — and is always in [0,1]; on two empty
strings it returns 1 (not 0). -/
theorem C2_amended :
    (∀ text1 text2 : String,
      0 ≤ calculateSimilarity text1 text2 ∧ calculateSimilarity text1 text2 ≤ 1)
    ∧ calculateSimilarity "" "" = 1 := by
  constructor
  · intro text1 text2
    simp only [calculateSimilarity]
    constructor
    · split
      · norm_num
      · exact jsDiv_nonneg ..
    · split
      · norm_num
      · next h =>
        exact jsDiv_le_one _ _ (Finset.card_le_card Finset.inter_subset_union) h
  · decide

/-- Claim C10: the similarity estimator is symmetric in its two arguments and
(being a pure function of them) deterministic. -/
theorem C10_similarity_symmetric :
    ∀ a b : String,
      calculateSimilarity a b = calculateSimilarity b a
      ∧ calculateSimilarity a b = calculateSimilarity a b := by
  intro a b
  refine ⟨?_, rfl⟩
  simp only [calculateSimilarity]
  rw [Finset.inter_comm, Finset.union_comm]

/-- Claim C3: with an empty context the transition is always NEW; against a
non-empty context, with `s` the similarity of the processed text to the most
recent entry's (non-empty) refined text: `s > 0.8` gives CONTINUE,
`0.3 < s ≤ 0.8` gives UPDATE, and `s ≤ 0.3` gives NEW. -/
theorem C3_transition_thresholds :
    (∀ (ekp : String → List String) (context : NarrationContext) (text : String),
      context.descriptions = [] →
      (refineDescription ekp context text).transitionType = TransitionType.NEW)
    ∧ (∀ (ekp : String → List String) (context : NarrationContext) (text : String)
          (e : DescriptionEntry),
        context.descriptions.getLast? = some e →
        e.refinedText ≠ "" →
        ((jsDiv 8 10 < calculateSimilarity text e.refinedText →
            (refineDescription ekp context text).transitionType = TransitionType.CONTINUE)
          ∧ (jsDiv 3 10 < calculateSimilarity text e.refinedText →
              calculateSimilarity text e.refinedText ≤ jsDiv 8 10 →
              (refineDescription ekp context text).transitionType = TransitionType.UPDATE)
          ∧ (calculateSimilarity text e.refinedText ≤ jsDiv 3 10 →
              (refineDescription ekp context text).transitionType = TransitionType.NEW))) := by
  constructor
  · intro ekp context text h
    have hL : context.descriptions.getLast? = none := by rw [h]; rfl
    simp [refineDescription, hL]
  · intro ekp context text e hL hne
    have h38 : jsDiv 3 10 ≤ jsDiv 8 10 := by
      rw [jsDiv_eq_div, jsDiv_eq_div]
      norm_num
    refine ⟨?_, ?_, ?_⟩
    · intro hs
      simp only [refineDescription, hL, if_neg hne, if_pos hs]
      rw [handleContinuation]
      split
      · rfl
      · rfl
    · intro h3 h8
      simp only [refineDescription, hL, if_neg hne, if_neg (not_lt.mpr h8), if_pos h3]
      rfl
    · intro h3
      simp only [refineDescription, hL, if_neg hne,
        if_neg (not_lt.mpr (le_trans h3 h38)), if_neg (not_lt.mpr h3)]
      rfl

/-- Witness for C3: a repeated description has similarity 1 > 0.8 to the last
context entry and is classified CONTINUE. -/
theorem C3_witness :
    (refineDescription (fun _ => [])
      { descriptions := [{ text := "a person is ahead", refinedText := "a person is ahead" }]
        maxSize := 5 }
      "a person is ahead").transitionType = TransitionType.CONTINUE :=
  (C3_transition_thresholds.2 (fun _ => [])
    { descriptions := [{ text := "a person is ahead", refinedText := "a person is ahead" }]
      maxSize := 5 }
    "a person is ahead" { text := "a person is ahead", refinedText := "a person is ahead" }
    (by decide) (by decide)).1 (by decide)

/-- Claim C4, counterexample.  The claim asserts that every burst of calls
inside one window yields exactly one refinement using the last call's text.
When the last call's text is the empty string — falsy in JS — the truthiness
guard `if (this.pendingDescription && this.onRefinedReady)` at
narrationOrchestrator.ts line 45 skips the timer body, so *no* refinement is
produced and no callback fires. -/
theorem C4_counterexample :
    (timerFire (fun _ => []) (runCalls (orchestratorInit 5) [(0, "")])).2 = none := by
  decide

/-- Claim C4 as amended: for any non-empty burst of `processDescription`
calls inside one debounce window (no timer fires in between, so each call
cancels its predecessor's timer) whose last call carries a *non-empty* text,
the surviving timer's fire yields exactly one refinement — carrying the
callback tag and the text of the last call — and a further fire event
produces nothing; superseded callbacks never run.  When the last call's text
is empty (JS falsy) the fire produces no refinement at all. -/
theorem C4_debounce :
    (∀ (ekp : String → List String) (st : OrchestratorState)
      (calls : List (Nat × String)) (h : calls ≠ []),
      (calls.getLast h).2 ≠ "" →
      (timerFire ekp (runCalls st calls)).2.map Prod.fst = some (calls.getLast h).1
      ∧ (timerFire ekp (runCalls st calls)).2.map (fun p => p.2.originalText)
          = some (calls.getLast h).2
      ∧ (timerFire ekp (timerFire ekp (runCalls st calls)).1).2 = none)
    ∧ (∀ (ekp : String → List String) (st : OrchestratorState)
      (calls : List (Nat × String)) (h : calls ≠ []),
      (calls.getLast h).2 = "" →
      (timerFire ekp (runCalls st calls)).2 = none) := by
  constructor
  · intro ekp st calls h hne
    have h1 : runCalls st calls = processDescription (runCalls st calls.dropLast)
        (calls.getLast h).1 (calls.getLast h).2 := by
      conv_lhs => rw [← List.dropLast_append_getLast h]
      exact runCalls_concat ..
    rw [h1]
    refine ⟨?_, ?_, ?_⟩ <;>
      simp [timerFire, processDescription, cancelPendingTransition,
        refineDescription_originalText, hne]
  · intro ekp st calls h hemp
    have h1 : runCalls st calls = processDescription (runCalls st calls.dropLast)
        (calls.getLast h).1 (calls.getLast h).2 := by
      conv_lhs => rw [← List.dropLast_append_getLast h]
      exact runCalls_concat ..
    rw [h1]
    simp [timerFire, processDescription, cancelPendingTransition, hemp]

/-- Witness for C4 (amended): three calls in one window produce one
refinement, for callback 2 with the third text. -/
theorem C4_witness :
    (timerFire (fun _ => [])
        (runCalls (orchestratorInit 5) [(0, "a person"), (1, "a door"), (2, "a window")])).2.map
        Prod.fst = some 2
    ∧ (timerFire (fun _ => [])
        (runCalls (orchestratorInit 5) [(0, "a person"), (1, "a door"), (2, "a window")])).2.map
        (fun p => p.2.originalText) = some "a window"
    ∧ (timerFire (fun _ => [])
        (timerFire (fun _ => [])
          (runCalls (orchestratorInit 5) [(0, "a person"), (1, "a door"), (2, "a window")])).1).2
        = none :=
  C4_debounce.1 (fun _ => []) (orchestratorInit 5)
    [(0, "a person"), (1, "a door"), (2, "a window")] (by decide) (by decide)

/-- Claim C8: the context window preserves `length ≤ maxSize`, appends new
entries at the end (chronological order), evicts exactly the oldest entry
when full, and six resolved `processDescription` rounds at `contextSize = 5`
leave precisely the five most recent texts, in order. -/
theorem C8_context_window :
    (∀ (context : NarrationContext) (text refinedText : String),
      context.descriptions.length ≤ context.maxSize →
      (addToContext context text refinedText).descriptions.length ≤ context.maxSize
      ∧ (addToContext context text refinedText).maxSize = context.maxSize)
    ∧ (∀ (context : NarrationContext) (text refinedText : String),
        context.descriptions.length < context.maxSize →
        (addToContext context text refinedText).descriptions
          = context.descriptions ++ [{ text := text, refinedText := refinedText }])
    ∧ (∀ (context : NarrationContext) (text refinedText : String),
        context.descriptions.length = context.maxSize → 0 < context.maxSize →
        (addToContext context text refinedText).descriptions
          = context.descriptions.tail ++ [{ text := text, refinedText := refinedText }])
    ∧ (List.foldl (runRound (fun _ => [])) (orchestratorInit 5)
        [(0, "one"), (1, "two"), (2, "three"), (3, "four"), (4, "five"), (5, "six")]
        ).context.descriptions.map DescriptionEntry.text
        = ["two", "three", "four", "five", "six"] := by
  refine ⟨?_, ?_, ?_, ?_⟩
  · intro context text refinedText hle
    rw [addToContext]
    split
    · next hgt =>
      refine ⟨?_, rfl⟩
      simp only [List.length_tail, List.length_append, List.length_singleton]
      omega
    · next hgt =>
      refine ⟨?_, rfl⟩
      simp only [List.length_append, List.length_singleton] at hgt ⊢
      omega
  · intro context text refinedText hlt
    rw [addToContext]
    split
    · next hgt =>
      simp only [List.length_append, List.length_singleton] at hgt
      omega
    · rfl
  · intro context text refinedText heq hpos
    rw [addToContext]
    split
    · cases hd : context.descriptions with
      | nil =>
        rw [hd] at heq
        simp at heq
        omega
      | cons a rest => rfl
    · next hgt =>
      simp only [List.length_append, List.length_singleton] at hgt
      omega
  · decide

/-- Witness for C8: a one-entry window of capacity 5 stays within capacity
after an insertion. -/
theorem C8_witness :
    (addToContext { descriptions := [{ text := "one", refinedText := "one" }], maxSize := 5 }
        "two" "two").descriptions.length ≤ 5
    ∧ (addToContext { descriptions := [{ text := "one", refinedText := "one" }], maxSize := 5 }
        "two" "two").maxSize = 5 :=
  C8_context_window.1
    { descriptions := [{ text := "one", refinedText := "one" }], maxSize := 5 }
    "two" "two" (by decide)

/-- Claim C1, counterexample.  The claim states that `addObservation` rejects
an observation whose text is empty after trimming, leaving the pending queue
unchanged.  On a fresh manager, a medium-priority observation with empty text
is appended to the queue: no emptiness check exists in `addObservation`. -/
theorem C1_counterexample :
    (addObservation (bsmInit (some "key")) 1000
        { narration := "", priority := ObservationPriority.medium }).1.pendingObservations
      = [{ narration := "", priority := ObservationPriority.medium, timestamp := 1000 }]
    ∧ (bsmInit (some "key")).pendingObservations = [] := by
  exact ⟨by decide, rfl⟩

/-- Claim C1 as amended: `addObservation` performs no emptiness validation —
an idle manager queues an empty-text medium observation.  Empty-after-trim
text is rejected only where `speakNow` guards it (the batch-flush and
high-priority idle paths): `speakNow` on such text is a no-op.  The critical
interrupt path does *not* reject it: a critical empty observation arriving
while speech has been audible for at least `minSpeechDuration` reaches
`interrupt`, which hands the empty text straight to `processSpeech`,
bypassing the blank-text guard. -/
theorem C1_amended :
    (∀ (st : BSMState) (text : String),
      (jsTrim text).length = 0 → speakNow st text = (st, SpeechEffect.none))
    ∧ (∀ (st : BSMState) (now : Nat),
        st.isSpeaking = false → st.isProcessingRef = false → st.currentAudioRef = none →
        wasRecentlySpoken st now "" = false →
        st.pendingObservations.any (fun existing =>
          isSimilarNarration (jsTrim (jsToLower existing.narration))
            (jsTrim (jsToLower ""))) = false →
        (addObservation st now
            { narration := "", priority := ObservationPriority.medium }).1.pendingObservations
          = st.pendingObservations
            ++ [{ narration := "", priority := ObservationPriority.medium, timestamp := now }])
    ∧ (∀ (st : BSMState) (now : Nat),
        st.isSpeaking = true →
        st.minSpeechDuration ≤ now - st.speechStartTime →
        addObservation st now { narration := "", priority := ObservationPriority.critical }
          = (stopCurrentSpeech st, SpeechEffect.scheduleProcessSpeech "")) := by
  refine ⟨?_, ?_, ?_⟩
  · intro st text h
    rw [speakNow, if_pos h]
  · intro st now hs hp ha hrec hdup
    rw [addObservation, show (3 : Nat) = 2 + 1 from rfl, addObservationFuel]
    have haud : audioActive st = false := by rw [audioActive, ha]
    simp [hs, hp, haud, hrec, hdup]
  · intro st now hs hdur
    have h1 : addObservation st now { narration := "", priority := ObservationPriority.critical }
        = interruptFuel 2 st now "" none := by
      rw [addObservation, show (3 : Nat) = 2 + 1 from rfl, addObservationFuel]
      simp [hs, ge_iff_le, hdur]
    have hnl : ¬ (now - st.speechStartTime < st.minSpeechDuration) := not_lt.mpr hdur
    rw [h1, show (2 : Nat) = 1 + 1 from rfl, interruptFuel]
    simp [hnl]

/-- Witness for C1 (amended): blank text is a `speakNow` no-op, an idle fresh
manager appends the empty observation, and a critical empty observation
during long-running speech goes straight to `processSpeech`. -/
theorem C1_witness :
    speakNow (bsmInit (some "key")) " " = (bsmInit (some "key"), SpeechEffect.none)
    ∧ (addObservation (bsmInit (some "key")) 7
        { narration := "", priority := ObservationPriority.medium }).1.pendingObservations
      = (bsmInit (some "key")).pendingObservations
        ++ [{ narration := "", priority := ObservationPriority.medium, timestamp := 7 }]
    ∧ addObservation
        { bsmInit (some "key") with isSpeaking := true, speechStartTime := 100 } 700
        { narration := "", priority := ObservationPriority.critical }
      = (stopCurrentSpeech { bsmInit (some "key") with isSpeaking := true, speechStartTime := 100 },
          SpeechEffect.scheduleProcessSpeech "") :=
  ⟨C1_amended.1 (bsmInit (some "key")) " " (by decide),
    C1_amended.2.1 (bsmInit (some "key")) 7 rfl rfl rfl (by decide) (by decide),
    C1_amended.2.2
      { bsmInit (some "key") with isSpeaking := true, speechStartTime := 100 } 700
      rfl (by decide)⟩

/-- Claim C5, counterexample.  The claim describes summarization as
dedup-sort-top3-join of the drained batch; the source first removes
observations spoken within the dedupe window.  With `"b"` recorded 50 ms ago,
the batch `[{critical,"B"}, {low,"A"}]` summarizes to `"A"`, not to the
claimed `"B. Also, a"`, and the flush speaks `"A"`. -/
theorem C5_counterexample :
    summarizeBatch stRecentFx 1000 batchFx = "A"
    ∧ claimSummarize batchFx = "B. Also, a"
    ∧ summarizeBatch stRecentFx 1000 batchFx ≠ claimSummarize batchFx
    ∧ (batchTick { stRecentFx with pendingObservations := batchFx } 1000).2
        = SpeechEffect.scheduleProcessSpeech "A" := by
  exact ⟨by decide, by decide, by decide, by decide⟩

/-- Claim C5 as amended: observations recently spoken are dropped first; on a
batch none of whose members was recently spoken, summarization is exactly the
claimed dedup / priority-sort / top-3 / join pipeline, and the spec's example
batch `[{low,"A"}, {critical,"B"}, {medium,"C"}]` summarizes to `"B. C. A"` —
B before C before A. -/
theorem C5_amended :
    (∀ (st : BSMState) (now : Nat) (observations : List Observation),
      (∀ obs ∈ observations, wasRecentlySpoken st now obs.narration = false) →
      summarizeBatch st now observations = claimSummarize observations)
    ∧ summarizeBatch (bsmInit none) 0 batchABCFx = "B. C. A" := by
  constructor
  · intro st now observations hall
    have hfilter : observations.filter
        (fun obs => !wasRecentlySpoken st now obs.narration) = observations :=
      List.filter_eq_self.mpr (fun a ha => by rw [hall a ha]; rfl)
    rw [summarizeBatch, hfilter]
    rcases observations with _ | ⟨a, _ | ⟨b, rest⟩⟩
    · rfl
    · rfl
    · rfl
  · decide

/-- Witness for C5 (amended): on a fresh manager (empty dedupe registry) the
source summarization coincides with the claimed pipeline. -/
theorem C5_witness :
    summarizeBatch (bsmInit none) 0 batchABCFx = claimSummarize batchABCFx :=
  C5_amended.1 (bsmInit none) 0 batchABCFx (by decide)

/-- Claim C6: a non-critical observation whose narration was recently spoken
(exactly or lexically similarly, within `dedupeWindowMs`) is dropped with the
state unchanged and no utterance; in particular, once a narration is recorded
as spoken (by the synthesis continuation), re-adding the same text within the
window is a no-op. -/
theorem C6_dedupe :
    (∀ (st : BSMState) (now : Nat) (observation : ObservationIn),
      observation.priority ≠ ObservationPriority.critical →
      wasRecentlySpoken st now observation.narration = true →
      addObservation st now observation = (st, SpeechEffect.none))
    ∧ (∀ (st : BSMState) (now₀ now : Nat) (text : String) (prio : ObservationPriority),
        st.isProcessingRef = true →
        prio ≠ ObservationPriority.critical →
        now - now₀ < st.dedupeWindowMs →
        addObservation (processSpeechAfterFetch st now₀ text).1 now
            { narration := text, priority := prio }
          = ((processSpeechAfterFetch st now₀ text).1, SpeechEffect.none)) := by
  constructor
  · exact addObservation_noop_of_recent
  · intro st now₀ now text prio hproc hprio hwin
    apply addObservation_noop_of_recent _ _ _ hprio
    have hmem : (normalizeKey text, now₀)
        ∈ ((processSpeechAfterFetch st now₀ text).1).lastSpoken := by
      rw [processSpeechAfterFetch]
      simp only [hproc, Bool.not_true, Bool.false_eq_true, if_false]
      exact mem_mapSet ..
    have hwd : ((processSpeechAfterFetch st now₀ text).1).dedupeWindowMs
        = st.dedupeWindowMs := by
      rw [processSpeechAfterFetch]
      simp only [hproc, Bool.not_true, Bool.false_eq_true, if_false]
      rfl
    exact wasRecentlySpoken_of_mem _ _ _ now₀ hmem (hwd ▸ hwin)

/-- Witness for C6: after the continuation records "Door ahead" at 100 ms, a
medium re-add of the same text at 200 ms is a no-op. -/
theorem C6_witness :
    addObservation (processSpeechAfterFetch stProcFx 100 "Door ahead").1 200
        { narration := "Door ahead", priority := ObservationPriority.medium }
      = ((processSpeechAfterFetch stProcFx 100 "Door ahead").1, SpeechEffect.none) :=
  C6_dedupe.2 stProcFx 100 200 "Door ahead" ObservationPriority.medium rfl
    (by decide) (by decide)

/-- Claim C9: `stop()` leaves an empty queue, clears every speaking flag and
both audio resource handles, and a synthesis continuation arriving after the
stop sees `isProcessingRef = false` and discards its result, so playback
never starts. -/
theorem C9_clean_teardown :
    ∀ (st : BSMState) (now : Nat) (text : String),
      (bsmStop st).pendingObservations = []
      ∧ (bsmStop st).isSpeaking = false
      ∧ (bsmStop st).isProcessingRef = false
      ∧ (bsmStop st).currentAudioRef = none
      ∧ (bsmStop st).currentAudioUrlRef = none
      ∧ processSpeechAfterFetch (bsmStop st) now text = (bsmStop st, false) := by
  intro st now text
  exact ⟨rfl, rfl, rfl, rfl, rfl, rfl⟩

/-- `speakNow` never touches the pending queue. -/
theorem speakNow_pendingObservations (st : BSMState) (text : String) :
    (speakNow st text).1.pendingObservations = st.pendingObservations := by
  rw [speakNow]
  split
  · rfl
  · cases st.apiKey
    · rfl
    · rfl

/-- Claim C7, counterexample.  The claim skips a flush tick when less than
100 ms have passed since the last utterance *ended*; the source's guard reads
`speechStartTime`, which the `onended` handler resets to 0, so a tick 50 ms
after an utterance ended drains and speaks immediately. -/
theorem C7_counterexample :
    1000 - (audioOnEnded stPlayingFx 950).lastEndedAt < 100
    ∧ (audioOnEnded stPlayingFx 950).pendingObservations ≠ []
    ∧ (batchTick (audioOnEnded stPlayingFx 950) 1000).1.pendingObservations = []
    ∧ (batchTick (audioOnEnded stPlayingFx 950) 1000).2
        = SpeechEffect.scheduleProcessSpeech "Crosswalk ahead" := by
  exact ⟨by decide, by decide, by decide, by decide⟩

/-- Claim C7 as amended: a flush tick is skipped — pending queue unchanged —
exactly when the queue is empty, the scheduler is speaking or processing, the
audio channel is actively playing, or playback of the *current* utterance
began less than 100 ms ago (`speechStartTime > 0`); otherwise the whole queue
is drained atomically and the summary is spoken only if it is non-blank and
not itself a recent duplicate. -/
theorem C7_amended :
    ∀ (st : BSMState) (now : Nat),
      ((st.pendingObservations = [] ∨ st.isSpeaking = true ∨ st.isProcessingRef = true
          ∨ audioActive st = true
          ∨ (0 < st.speechStartTime ∧ now - st.speechStartTime < 100)) →
        batchTick st now = (st, SpeechEffect.none))
      ∧ (st.pendingObservations ≠ [] → st.isSpeaking = false → st.isProcessingRef = false →
          audioActive st = false →
          ¬(0 < st.speechStartTime ∧ now - st.speechStartTime < 100) →
          ((batchTick st now).1.pendingObservations = []
            ∧ ((jsTrim (summarizeBatch { st with pendingObservations := [] } now
                    st.pendingObservations)).length = 0
                  ∨ wasRecentlySpoken { st with pendingObservations := [] } now
                      (summarizeBatch { st with pendingObservations := [] } now
                        st.pendingObservations) = true →
                (batchTick st now).2 = SpeechEffect.none)
            ∧ ((jsTrim (summarizeBatch { st with pendingObservations := [] } now
                    st.pendingObservations)).length ≠ 0 →
                wasRecentlySpoken { st with pendingObservations := [] } now
                    (summarizeBatch { st with pendingObservations := [] } now
                      st.pendingObservations) = false →
                batchTick st now
                  = speakNow { st with pendingObservations := [] }
                      (summarizeBatch { st with pendingObservations := [] } now
                        st.pendingObservations)))) := by
  intro st now
  constructor
  · intro h
    rw [batchTick]
    split_ifs with g1 g2 g3 g4 <;> try rfl
    all_goals
      exfalso
      rcases h with h | h | h | h | h
      · exact g1 (by rw [h]; rfl)
      · simp [h] at g2
      · simp [h] at g2
      · simp [h] at g3
      · simp [h.1, h.2] at g4
  · intro h0 h1 h2 h3 h4
    have hlen : ¬ st.pendingObservations.length = 0 := by
      simpa [List.length_eq_zero] using h0
    have hguard : ¬ ((decide (st.speechStartTime > 0)
        && decide (now - st.speechStartTime < 100)) = true) := by
      simpa [Bool.and_eq_true, decide_eq_true_iff] using h4
    have hrun : batchTick st now =
        (if (jsTrim (summarizeBatch { st with pendingObservations := [] } now
              st.pendingObservations)).length = 0 then
          ({ st with pendingObservations := [] }, SpeechEffect.none)
        else if wasRecentlySpoken { st with pendingObservations := [] } now
            (summarizeBatch { st with pendingObservations := [] } now
              st.pendingObservations) = true then
          ({ st with pendingObservations := [] }, SpeechEffect.none)
        else speakNow { st with pendingObservations := [] }
            (summarizeBatch { st with pendingObservations := [] } now
              st.pendingObservations)) := by
      rw [batchTick, if_neg hlen, if_neg (by simp [h1, h2]), if_neg (by simp [h3]),
        if_neg hguard]
    refine ⟨?_, ?_, ?_⟩
    · rw [hrun]
      by_cases hb : (jsTrim (summarizeBatch { st with pendingObservations := [] } now
          st.pendingObservations)).length = 0
      · rw [if_pos hb]
      · rw [if_neg hb]
        by_cases hd : wasRecentlySpoken { st with pendingObservations := [] } now
            (summarizeBatch { st with pendingObservations := [] } now
              st.pendingObservations) = true
        · rw [if_pos hd]
        · rw [if_neg hd]
          exact speakNow_pendingObservations ..
    · intro hcase
      rcases hcase with hblank | hdup
      · rw [hrun, if_pos hblank]
      · by_cases hb : (jsTrim (summarizeBatch { st with pendingObservations := [] } now
            st.pendingObservations)).length = 0
        · rw [hrun, if_pos hb]
        · rw [hrun, if_neg hb, if_pos hdup]
    · intro hblank hdup
      rw [hrun, if_neg hblank, if_neg (by simp [hdup])]

/-- Witness for C7 (amended): a tick on an idle manager with one queued fresh
observation drains the queue and schedules its narration. -/
theorem C7_witness :
    (batchTick { bsmInit (some "key") with pendingObservations :=
        [{ narration := "Stairs on the right", priority := ObservationPriority.medium,
           timestamp := 0 }] } 50).1.pendingObservations = []
    ∧ (batchTick { bsmInit (some "key") with pendingObservations :=
        [{ narration := "Stairs on the right", priority := ObservationPriority.medium,
           timestamp := 0 }] } 50).2
        = SpeechEffect.scheduleProcessSpeech "Stairs on the right" := by
  have h := (C7_amended { bsmInit (some "key") with pendingObservations :=
      [{ narration := "Stairs on the right", priority := ObservationPriority.medium,
         timestamp := 0 }] } 50).2
    (by decide) rfl rfl rfl (by decide)
  refine ⟨h.1, ?_⟩
  rw [h.2.2 (by decide) (by decide)]
  decide
